import Mathlib

/-!
Verification of the Arduboy board example (`examples/board_arduboy`):
the SSD1306 persistence ("luma") filter of `ssd1306_gl.c`, and the input
event bridge and timing callbacks of `sim_arduboy.c`.

Machine integers are modelled as `Nat` (all the C values involved are
`uint8_t`/`uint64_t` quantities that stay in range), with the one signed
intermediate (`int16_t luma`) modelled as `Int`, exact because its C value
always lies in `[-255, 510]`.
-/

namespace Arduboy

/-- Modelled from the spec: the display geometry macros `SSD1306_VIRT_COLUMNS`
and `SSD1306_VIRT_PAGES` come from `ssd1306_virt.h`, which is not among the
sources at hand; the spec fixes a 128×64 display, i.e. 128 byte-columns and
64/8 = 8 pages of 8 pixel rows each. -/
def SSD1306_VIRT_COLUMNS : Nat := 128

/-- Modelled from the spec: see `SSD1306_VIRT_COLUMNS`. -/
def SSD1306_VIRT_PAGES : Nat := 8

/-- Byte-addressed memory. The persistence buffer `luma_pixmap`
(`SSD1306_VIRT_COLUMNS*SSD1306_VIRT_PAGES*8` bytes, ssd1306_gl.c:32) occupies
addresses `[0, 8192)`; the flat offset of page `p`, column `c`, row bit `k` is
`p*1024 + c + k*128`, exactly the pointer walk of `update_lumamap`
(`column_ptr` advances by one per column and by `7*128` per page, and `px_idx`
adds multiples of 128). The source bitmap byte `ssd1306->vram[p][c]` — a
distinct C object, placed after the buffer here so that disjointness is a
provable fact rather than an assumption — sits at `VRAM_BASE + p*128 + c`. -/
def Mem : Type := Nat → Nat

/-- First address past the persistence buffer: `8*8*128 = 8192`. -/
def VRAM_BASE : Nat := SSD1306_VIRT_PAGES * 8 * SSD1306_VIRT_COLUMNS

/-- A single byte store `m[a] = v`. -/
def writeMem (m : Mem) (a v : Nat) : Mem := fun x => if x = a then v else m x

/-- The per-pixel body of `update_lumamap` (ssd1306_gl.c:41-52): load the
entry into an `int16_t`, subtract `luma_decay`, add `luma_inc` when the
pixel's bit is set, and clamp the result to `[0, 255]`. For `uint8_t`
arguments the `int16_t` value stays within `[-255, 510]`, so `Int` models it
exactly. -/
def pixel_update (luma luma_decay luma_inc : Nat) (bit : Bool) : Nat :=
  let l1 : Int := (luma : Int) - (luma_decay : Int)
  let l2 : Int := if bit then l1 + (luma_inc : Int) else l1
  (if l2 < 0 then 0 else if l2 > 255 then 255 else l2).toNat

/-- One iteration of the inner `px_idx` loop of `update_lumamap`: for row `k`
(`px_idx = k*SSD1306_VIRT_COLUMNS`), read and write `colBase + k*128`, testing
bit `k` of the column byte `px_col` (the C code shifts `px_col` right once per
iteration and tests bit 0, which is the same test). -/
def colStep (luma_decay luma_inc colBase px_col : Nat) (m : Mem) (k : Nat) : Mem :=
  writeMem m (colBase + k * SSD1306_VIRT_COLUMNS)
    (pixel_update (m (colBase + k * SSD1306_VIRT_COLUMNS)) luma_decay luma_inc
      (Nat.testBit px_col k))

/-- The inner `px_idx` loop of `update_lumamap` for one column: eight rows,
rows scanned least-significant bit first. -/
def update_column (luma_decay luma_inc colBase px_col : Nat) (m : Mem) : Mem :=
  List.foldl (colStep luma_decay luma_inc colBase px_col) m (List.range 8)

/-- One iteration of the middle loop of `update_lumamap`: read
`px_col = ssd1306->vram[p][c]` from the current memory and update the eight
pixels of that column; `column_ptr` for page `p`, column `c` is
`luma_pixmap + p*8*128 + c`. -/
def colApply (luma_decay luma_inc p : Nat) (m : Mem) (c : Nat) : Mem :=
  update_column luma_decay luma_inc (p * 8 * SSD1306_VIRT_COLUMNS + c)
    (m (VRAM_BASE + p * SSD1306_VIRT_COLUMNS + c)) m

/-- The middle loop of `update_lumamap`: all columns of page `p`. -/
def update_page (luma_decay luma_inc : Nat) (m : Mem) (p : Nat) : Mem :=
  List.foldl (colApply luma_decay luma_inc p) m (List.range SSD1306_VIRT_COLUMNS)

/-- `update_lumamap` (ssd1306_gl.c:34-59): walk every page, every column, and
every one of the eight pixels per column byte, applying the decay/increment
step to the persistence buffer in place. -/
def update_lumamap (m : Mem) (luma_decay luma_inc : Nat) : Mem :=
  List.foldl (update_page luma_decay luma_inc) m (List.range SSD1306_VIRT_PAGES)

/-- The clamp function the spec states the update with: `clamp(v, 0, 255)`. -/
def clamp255 (v : Int) : Nat := (if v < 0 then 0 else if v > 255 then 255 else v).toNat

/- ### Generic single-address preservation lemmas -/

theorem foldl_untouched {α : Type} (S : Mem → α → Mem) (L : List α) (a : Nat)
    (h : ∀ m x, x ∈ L → S m x a = m a) : ∀ m : Mem, List.foldl S m L a = m a := by
  induction L with
  | nil => intro m; rfl
  | cons x xs ih =>
    intro m
    rw [List.foldl_cons, ih (fun m y hy => h m y (List.mem_cons_of_mem x hy))]
    exact h m x (List.mem_cons_self x xs)

theorem writeMem_ne (m : Mem) (b v a : Nat) (h : a ≠ b) : writeMem m b v a = m a := by
  simp [writeMem, h]

theorem writeMem_eq (m : Mem) (b v : Nat) : writeMem m b v b = v := by
  simp [writeMem]

theorem colStep_untouched (d i b px : Nat) (m : Mem) (k a : Nat)
    (h : a ≠ b + k * SSD1306_VIRT_COLUMNS) : colStep d i b px m k a = m a :=
  writeMem_ne _ _ _ _ h

theorem update_column_untouched (d i b px : Nat) (m : Mem) (a : Nat)
    (h : ∀ k, k < 8 → a ≠ b + k * SSD1306_VIRT_COLUMNS) :
    update_column d i b px m a = m a :=
  foldl_untouched (colStep d i b px) (List.range 8) a
    (fun m' k hk => colStep_untouched d i b px m' k a (h k (List.mem_range.mp hk))) m

theorem update_column_at (d i b px : Nat) (m : Mem) (k : Nat) (hk : k < 8) :
    update_column d i b px m (b + k * SSD1306_VIRT_COLUMNS) =
      pixel_update (m (b + k * SSD1306_VIRT_COLUMNS)) d i (Nat.testBit px k) := by
  obtain ⟨s, t, hst⟩ := List.append_of_mem (List.mem_range.mpr hk)
  have hnd : (s ++ k :: t).Nodup := hst ▸ List.nodup_range 8
  rw [List.nodup_append] at hnd
  obtain ⟨hs, hkt, hdisj⟩ := hnd
  have hks : k ∉ s := fun hmem => hdisj hmem (List.mem_cons_self k t)
  have hkt' : k ∉ t := (List.nodup_cons.mp hkt).1
  have hpres : ∀ (u : List Nat), k ∉ u → ∀ m' : Mem,
      List.foldl (colStep d i b px) m' u (b + k * SSD1306_VIRT_COLUMNS) =
        m' (b + k * SSD1306_VIRT_COLUMNS) := by
    intro u hku m'
    refine foldl_untouched (colStep d i b px) u _ (fun m'' x hx => ?_) m'
    refine colStep_untouched d i b px m'' x _ (fun heq => ?_)
    have hxk : x = k := by
      have : k * SSD1306_VIRT_COLUMNS = x * SSD1306_VIRT_COLUMNS := by omega
      simp only [SSD1306_VIRT_COLUMNS] at this
      omega
    exact hku (hxk ▸ hx)
  show List.foldl (colStep d i b px) m (List.range 8) (b + k * SSD1306_VIRT_COLUMNS) = _
  rw [hst, List.foldl_append, List.foldl_cons, hpres t hkt']
  show writeMem _ _ _ _ = _
  rw [writeMem_eq, hpres s hks]

theorem colApply_untouched (d i p : Nat) (m : Mem) (c a : Nat)
    (h : ∀ k, k < 8 → a ≠ p * 8 * SSD1306_VIRT_COLUMNS + c + k * SSD1306_VIRT_COLUMNS) :
    colApply d i p m c a = m a :=
  update_column_untouched d i (p * 8 * SSD1306_VIRT_COLUMNS + c)
    (m (VRAM_BASE + p * SSD1306_VIRT_COLUMNS + c)) m a h

theorem update_page_untouched (d i p : Nat) (m : Mem) (a : Nat)
    (h : ∀ c k, c < SSD1306_VIRT_COLUMNS → k < 8 →
      a ≠ p * 8 * SSD1306_VIRT_COLUMNS + c + k * SSD1306_VIRT_COLUMNS) :
    update_page d i m p a = m a :=
  foldl_untouched (colApply d i p) (List.range SSD1306_VIRT_COLUMNS) a
    (fun m' c hc => colApply_untouched d i p m' c a
      (fun k hk => h c k (List.mem_range.mp hc) hk)) m

theorem update_page_vram (d i p : Nat) (hp : p < SSD1306_VIRT_PAGES) (m : Mem) (a : Nat)
    (ha : VRAM_BASE ≤ a) : update_page d i m p a = m a := by
  refine update_page_untouched d i p m a (fun c k hc hk => ?_)
  simp only [SSD1306_VIRT_COLUMNS, SSD1306_VIRT_PAGES, VRAM_BASE] at hp hc ha ⊢
  omega

theorem update_page_at (d i p c k : Nat) (hp : p < SSD1306_VIRT_PAGES)
    (hc : c < SSD1306_VIRT_COLUMNS) (hk : k < 8) (m : Mem) :
    update_page d i m p (p * 8 * SSD1306_VIRT_COLUMNS + c + k * SSD1306_VIRT_COLUMNS) =
      pixel_update (m (p * 8 * SSD1306_VIRT_COLUMNS + c + k * SSD1306_VIRT_COLUMNS)) d i
        (Nat.testBit (m (VRAM_BASE + p * SSD1306_VIRT_COLUMNS + c)) k) := by
  obtain ⟨s, t, hst⟩ := List.append_of_mem (List.mem_range.mpr hc)
  have hnd : (s ++ c :: t).Nodup := hst ▸ List.nodup_range SSD1306_VIRT_COLUMNS
  rw [List.nodup_append] at hnd
  obtain ⟨hs, hct, hdisj⟩ := hnd
  have hcs : c ∉ s := fun hmem => hdisj hmem (List.mem_cons_self c t)
  have hct' : c ∉ t := (List.nodup_cons.mp hct).1
  have hssub : ∀ x ∈ s, x < SSD1306_VIRT_COLUMNS := by
    intro x hx
    refine List.mem_range.mp ?_
    rw [hst]
    exact List.mem_append_left _ hx
  have htsub : ∀ x ∈ t, x < SSD1306_VIRT_COLUMNS := by
    intro x hx
    refine List.mem_range.mp ?_
    rw [hst]
    exact List.mem_append_right _ (List.mem_cons_of_mem c hx)
  have hluma : ∀ (u : List Nat), c ∉ u → (∀ x ∈ u, x < SSD1306_VIRT_COLUMNS) →
      ∀ m' : Mem, List.foldl (colApply d i p) m' u
          (p * 8 * SSD1306_VIRT_COLUMNS + c + k * SSD1306_VIRT_COLUMNS) =
        m' (p * 8 * SSD1306_VIRT_COLUMNS + c + k * SSD1306_VIRT_COLUMNS) := by
    intro u hcu hub m'
    refine foldl_untouched (colApply d i p) u _ (fun m'' x hx => ?_) m'
    refine colApply_untouched d i p m'' x _ (fun k' hk' heq => ?_)
    have hxlt := hub x hx
    have hxc : x = c := by
      simp only [SSD1306_VIRT_COLUMNS] at heq hxlt hc hk hk'
      omega
    exact hcu (hxc ▸ hx)
  have hvram : ∀ (u : List Nat), (∀ x ∈ u, x < SSD1306_VIRT_COLUMNS) → ∀ m' : Mem,
      List.foldl (colApply d i p) m' u (VRAM_BASE + p * SSD1306_VIRT_COLUMNS + c) =
        m' (VRAM_BASE + p * SSD1306_VIRT_COLUMNS + c) := by
    intro u hub m'
    refine foldl_untouched (colApply d i p) u _ (fun m'' x hx => ?_) m'
    refine colApply_untouched d i p m'' x _ (fun k' hk' heq => ?_)
    have hxlt := hub x hx
    simp only [SSD1306_VIRT_COLUMNS, SSD1306_VIRT_PAGES, VRAM_BASE] at heq hxlt hp hk'
    omega
  show List.foldl (colApply d i p) m (List.range SSD1306_VIRT_COLUMNS) _ = _
  rw [hst, List.foldl_append, List.foldl_cons, hluma t hct' htsub]
  show update_column d i (p * 8 * SSD1306_VIRT_COLUMNS + c) _ _ _ = _
  rw [update_column_at d i _ _ _ k hk, hluma s hcs hssub, hvram s hssub]

theorem update_lumamap_vram (m : Mem) (d i a : Nat) (ha : VRAM_BASE ≤ a) :
    update_lumamap m d i a = m a :=
  foldl_untouched (update_page d i) (List.range SSD1306_VIRT_PAGES) a
    (fun m' p hp => update_page_vram d i p (List.mem_range.mp hp) m' a ha) m

theorem update_lumamap_spec (m : Mem) (d i p c k : Nat) (hp : p < SSD1306_VIRT_PAGES)
    (hc : c < SSD1306_VIRT_COLUMNS) (hk : k < 8) :
    update_lumamap m d i (p * 8 * SSD1306_VIRT_COLUMNS + c + k * SSD1306_VIRT_COLUMNS) =
      pixel_update (m (p * 8 * SSD1306_VIRT_COLUMNS + c + k * SSD1306_VIRT_COLUMNS)) d i
        (Nat.testBit (m (VRAM_BASE + p * SSD1306_VIRT_COLUMNS + c)) k) := by
  obtain ⟨s, t, hst⟩ := List.append_of_mem (List.mem_range.mpr hp)
  have hnd : (s ++ p :: t).Nodup := hst ▸ List.nodup_range SSD1306_VIRT_PAGES
  rw [List.nodup_append] at hnd
  obtain ⟨hs, hpt, hdisj⟩ := hnd
  have hps : p ∉ s := fun hmem => hdisj hmem (List.mem_cons_self p t)
  have hpt' : p ∉ t := (List.nodup_cons.mp hpt).1
  have hssub : ∀ x ∈ s, x < SSD1306_VIRT_PAGES := by
    intro x hx
    refine List.mem_range.mp ?_
    rw [hst]
    exact List.mem_append_left _ hx
  have htsub : ∀ x ∈ t, x < SSD1306_VIRT_PAGES := by
    intro x hx
    refine List.mem_range.mp ?_
    rw [hst]
    exact List.mem_append_right _ (List.mem_cons_of_mem p hx)
  have hpage : ∀ (u : List Nat), p ∉ u → (∀ x ∈ u, x < SSD1306_VIRT_PAGES) →
      ∀ m' : Mem, List.foldl (update_page d i) m' u
          (p * 8 * SSD1306_VIRT_COLUMNS + c + k * SSD1306_VIRT_COLUMNS) =
        m' (p * 8 * SSD1306_VIRT_COLUMNS + c + k * SSD1306_VIRT_COLUMNS) := by
    intro u hpu hub m'
    refine foldl_untouched (update_page d i) u _ (fun m'' x hx => ?_) m'
    refine update_page_untouched d i x m'' _ (fun c' k' hc' hk' heq => ?_)
    have hxlt := hub x hx
    have hxp : x = p := by
      simp only [SSD1306_VIRT_COLUMNS, SSD1306_VIRT_PAGES] at heq hxlt hc hk hc' hk'
      omega
    exact hpu (hxp ▸ hx)
  have hvram2 : ∀ (u : List Nat), (∀ x ∈ u, x < SSD1306_VIRT_PAGES) → ∀ m' : Mem,
      List.foldl (update_page d i) m' u (VRAM_BASE + p * SSD1306_VIRT_COLUMNS + c) =
        m' (VRAM_BASE + p * SSD1306_VIRT_COLUMNS + c) := by
    intro u hub m'
    refine foldl_untouched (update_page d i) u _
      (fun m'' x hx => update_page_vram d i x (hub x hx) m'' _ ?_) m'
    simp only [SSD1306_VIRT_COLUMNS, SSD1306_VIRT_PAGES, VRAM_BASE]
    omega
  show List.foldl (update_page d i) m (List.range SSD1306_VIRT_PAGES) _ = _
  rw [hst, List.foldl_append, List.foldl_cons, hpage t hpt' htsub]
  show update_page d i _ p _ = _
  rw [update_page_at d i p c k hp hc hk, hpage s hps hssub, hvram2 s hssub]

/-- C1: one call to `update_lumamap` stores, for the pixel at page `p`,
column `c`, row bit `k` (buffer offset `p*1024 + c + k*128`) with current
luminance `l`, the value `clamp(l - d + i, 0, 255)` when the pixel's bit is
set in the source bitmap byte `vram[p][c]`, and `clamp(l - d, 0, 255)` when
the bit is clear; `l`, the decay `d` and the increment `i` range over
`[0, 255]` (they are `uint8_t`). -/
theorem update_lumamap_pixel (m : Mem) (d i p c k : Nat)
    (hd : d ≤ 255) (hi : i ≤ 255)
    (hl : m (p * 8 * SSD1306_VIRT_COLUMNS + c + k * SSD1306_VIRT_COLUMNS) ≤ 255)
    (hp : p < SSD1306_VIRT_PAGES) (hc : c < SSD1306_VIRT_COLUMNS) (hk : k < 8) :
    update_lumamap m d i (p * 8 * SSD1306_VIRT_COLUMNS + c + k * SSD1306_VIRT_COLUMNS) =
      if Nat.testBit (m (VRAM_BASE + p * SSD1306_VIRT_COLUMNS + c)) k
      then clamp255 ((m (p * 8 * SSD1306_VIRT_COLUMNS + c + k * SSD1306_VIRT_COLUMNS) : Int)
        - (d : Int) + (i : Int))
      else clamp255 ((m (p * 8 * SSD1306_VIRT_COLUMNS + c + k * SSD1306_VIRT_COLUMNS) : Int)
        - (d : Int)) := by
  rw [update_lumamap_spec m d i p c k hp hc hk]
  cases Nat.testBit (m (VRAM_BASE + p * SSD1306_VIRT_COLUMNS + c)) k <;> rfl

/-- C9: `update_lumamap` mutates only the persistence buffer — every byte at
or above `VRAM_BASE`, in particular the whole source bitmap `ssd1306->vram`,
is left unchanged. -/
theorem update_lumamap_frame (m : Mem) (d i a : Nat) (ha : VRAM_BASE ≤ a) :
    update_lumamap m d i a = m a :=
  update_lumamap_vram m d i a ha

/- ### Initialization (C3) -/

/-- The C `static` array `luma_pixmap` (ssd1306_gl.c:32) as it exists before
any code runs: static storage is zero-initialized by the C runtime. -/
def luma_pixmap_start : Mem := fun _ => 0

/-- The effect of `ssd1306_gl_init` (ssd1306_gl.c:125-129) on the buffer:
`memset(luma_pixmap, 0, sizeof(*luma_pixmap))` clears `sizeof(uint8_t) = 1`
byte, i.e. offset 0 only (the function also stores `pixel_size`, which does
not touch the buffer). -/
def ssd1306_gl_init (m : Mem) : Mem := fun a => if a < 1 then 0 else m a

/-- C3: after `ssd1306_gl_init` and before any update every entry of
`luma_pixmap` equals 0. The memset only covers one byte (`sizeof` applied to
the dereferenced pointer), but the static array is zero-initialized, so at
this point in the program's life the whole buffer is 0 regardless. -/
theorem gl_init_buffer_zero (n : Nat) : ssd1306_gl_init luma_pixmap_start n = 0 := by
  simp [ssd1306_gl_init, luma_pixmap_start]

/- ### Decay convergence (C4) -/

theorem pixel_update_clear (l d i : Nat) (hl : l ≤ 255) :
    pixel_update l d i false = l - d := by
  simp only [pixel_update, Bool.false_eq_true, if_false]
  split
  · omega
  · split <;> omega

theorem pixel_update_clear_iterate (l d i : Nat) (hl : l ≤ 255) (n : Nat) :
    (fun x => pixel_update x d i false)^[n] l = l - n * d := by
  induction n with
  | zero => simp
  | succ n ih =>
    rw [Function.iterate_succ_apply', ih, pixel_update_clear _ _ _ (by omega), Nat.succ_mul]
    omega

/-- C4: for any decay `1 ≤ d ≤ 255` and starting luminance `l ≤ 255`,
iterating the per-pixel update with the bit clear reaches 0 within
`ceil(255/d) = (255 + d - 1)/d` applications, and every application from the
`ceil(255/d)`-th on still yields 0. -/
theorem decay_converges (d i l : Nat) (hd : 1 ≤ d) (hd2 : d ≤ 255) (hl : l ≤ 255) :
    (fun x => pixel_update x d i false)^[(255 + d - 1) / d] l = 0 ∧
      ∀ n, (255 + d - 1) / d ≤ n → (fun x => pixel_update x d i false)^[n] l = 0 := by
  have hceil : 255 ≤ d * ((255 + d - 1) / d) := by
    have h1 := Nat.div_add_mod (255 + d - 1) d
    have h2 : (255 + d - 1) % d < d := Nat.mod_lt _ (by omega)
    omega
  constructor
  · rw [pixel_update_clear_iterate l d i hl]
    have : d * ((255 + d - 1) / d) = ((255 + d - 1) / d) * d := Nat.mul_comm _ _
    omega
  · intro n hn
    rw [pixel_update_clear_iterate l d i hl]
    have hmono : ((255 + d - 1) / d) * d ≤ n * d := Nat.mul_le_mul_right d hn
    have : d * ((255 + d - 1) / d) = ((255 + d - 1) / d) * d := Nat.mul_comm _ _
    omega

/- ### Decay/increment scenario (C2) -/

/-- `LUMA_INC` (sim_arduboy.c:53): `256*2/3`, i.e. 170 by C integer division. -/
def LUMA_INC : Nat := 256 * 2 / 3

/-- `LUMA_DECAY` (sim_arduboy.c:54): `256/3`, i.e. 85. -/
def LUMA_DECAY : Nat := 256 / 3

/-- Scenario memory for the spec's 128×64 scenario: persistence buffer all
zero (its state after initialization) and a single source-bitmap bit set —
bit 0 of `vram[0][0]`, driving the pixel at buffer offset 0. -/
def demo_mem : Mem := fun a => if a = VRAM_BASE then 1 else 0

/-- Buffer after the first update with the bit on. -/
def demo_on1 : Mem := update_lumamap demo_mem LUMA_DECAY LUMA_INC

/-- Buffer after the second update with the bit on. -/
def demo_on2 : Mem := update_lumamap demo_on1 LUMA_DECAY LUMA_INC

/-- Buffer after the third update with the bit on. -/
def demo_on3 : Mem := update_lumamap demo_on2 LUMA_DECAY LUMA_INC

/-- The pixel's bit is then turned off: the firmware clears `vram[0][0]`. -/
def demo_off0 : Mem := writeMem demo_on3 VRAM_BASE 0

/-- Buffer after the first update with the bit off. -/
def demo_off1 : Mem := update_lumamap demo_off0 LUMA_DECAY LUMA_INC

/-- Buffer after the second update with the bit off. -/
def demo_off2 : Mem := update_lumamap demo_off1 LUMA_DECAY LUMA_INC

/-- Buffer after the third update with the bit off. -/
def demo_off3 : Mem := update_lumamap demo_off2 LUMA_DECAY LUMA_INC

theorem update_lumamap_at_zero (m : Mem) (d i : Nat) :
    update_lumamap m d i 0 = pixel_update (m 0) d i (Nat.testBit (m VRAM_BASE) 0) := by
  have h := update_lumamap_spec m d i 0 0 0 (by simp [SSD1306_VIRT_PAGES])
    (by simp [SSD1306_VIRT_COLUMNS]) (by omega)
  simpa using h

theorem demo_on1_luma : demo_on1 0 = 85 := by
  rw [demo_on1, update_lumamap_at_zero]
  have hm0 : demo_mem 0 = 0 := by
    simp [demo_mem, VRAM_BASE, SSD1306_VIRT_PAGES, SSD1306_VIRT_COLUMNS]
  have hmv : demo_mem VRAM_BASE = 1 := by simp [demo_mem]
  rw [hm0, hmv]
  decide

theorem demo_on1_vram : demo_on1 VRAM_BASE = 1 := by
  rw [demo_on1, update_lumamap_vram _ _ _ _ (Nat.le_refl _)]
  simp [demo_mem]

theorem demo_on2_luma : demo_on2 0 = 170 := by
  rw [demo_on2, update_lumamap_at_zero, demo_on1_luma, demo_on1_vram]
  decide

theorem demo_on2_vram : demo_on2 VRAM_BASE = 1 := by
  rw [demo_on2, update_lumamap_vram _ _ _ _ (Nat.le_refl _)]
  exact demo_on1_vram

theorem demo_on3_luma : demo_on3 0 = 255 := by
  rw [demo_on3, update_lumamap_at_zero, demo_on2_luma, demo_on2_vram]
  decide

theorem demo_off0_luma : demo_off0 0 = 255 := by
  rw [demo_off0, writeMem_ne _ _ _ _ (by simp [VRAM_BASE, SSD1306_VIRT_PAGES, SSD1306_VIRT_COLUMNS])]
  exact demo_on3_luma

theorem demo_off0_vram : demo_off0 VRAM_BASE = 0 := writeMem_eq _ _ _

theorem demo_off1_luma : demo_off1 0 = 170 := by
  rw [demo_off1, update_lumamap_at_zero, demo_off0_luma, demo_off0_vram]
  decide

theorem demo_off1_vram : demo_off1 VRAM_BASE = 0 := by
  rw [demo_off1, update_lumamap_vram _ _ _ _ (Nat.le_refl _)]
  exact demo_off0_vram

theorem demo_off2_luma : demo_off2 0 = 85 := by
  rw [demo_off2, update_lumamap_at_zero, demo_off1_luma, demo_off1_vram]
  decide

theorem demo_off2_vram : demo_off2 VRAM_BASE = 0 := by
  rw [demo_off2, update_lumamap_vram _ _ _ _ (Nat.le_refl _)]
  exact demo_off1_vram

theorem demo_off3_luma : demo_off3 0 = 0 := by
  rw [demo_off3, update_lumamap_at_zero, demo_off2_luma, demo_off2_vram]
  decide

/-- C2 counterexample: with decay 85 and increment 170, a pixel whose bit is
set starting from luminance 0 is stored as `clamp(0 - 85 + 170) = 85` by the
first `update_lumamap` call — not 170 as the claim states. -/
theorem demo_first_update_not_170 : demo_on1 0 = 85 ∧ demo_on1 0 ≠ 170 := by
  refine ⟨demo_on1_luma, ?_⟩
  rw [demo_on1_luma]
  decide

/-- C2 (amended): with a 128×64 buffer, decay 85 and increment 170, a single
pixel whose bit stays set for 3 consecutive `update_lumamap` calls starting
from luminance 0 takes the values 85, 170, 255; after the bit is cleared the
next 3 calls take it through 170, 85, 0. -/
theorem demo_sequence :
    demo_on1 0 = 85 ∧ demo_on2 0 = 170 ∧ demo_on3 0 = 255 ∧
      demo_off1 0 = 170 ∧ demo_off2 0 = 85 ∧ demo_off3 0 = 0 :=
  ⟨demo_on1_luma, demo_on2_luma, demo_on3_luma,
    demo_off1_luma, demo_off2_luma, demo_off3_luma⟩

/- ### Input event bridge (C5, C6, C10) -/

/-- `struct button_info` (sim_arduboy.c:66-73), restricted to the fields the
event logic touches: the button id, the allocated interrupt line (`irq`,
abstracted to an identifier), and the stored `pressed` flag. -/
structure ButtonInfo where
  btn_id : Nat
  irq : Nat
  pressed : Bool
deriving DecidableEq

/-- `notify_button_event` (sim_arduboy.c:208-219) in the non-threaded build
(`USE_THREADS` is 0): `none` models a NULL `btn` pointer. Returns the updated
button and the list of `avr_raise_irq(irq, value)` calls made; the raised
value is `!e.pressed`, i.e. 0 for a press and 1 for a release. -/
def notify_button_event (btn : Option ButtonInfo) (pressed : Bool) :
    Option ButtonInfo × List (Nat × Nat) :=
  match btn with
  | none => (none, [])
  | some b =>
    if b.pressed ≠ pressed then
      (some { b with pressed := pressed }, [(b.irq, if pressed then 0 else 1)])
    else
      (some b, [])

/-- C5: from a button in its initial released state, two consecutive calls
with `pressed = true` deliver exactly one edge event — the second call
changes no state and delivers nothing — and a following `pressed = false`
call delivers exactly one more event. -/
theorem notify_press_press_release (b : ButtonInfo) (h : b.pressed = false) :
    (notify_button_event (some b) true).2.length = 1 ∧
      notify_button_event (notify_button_event (some b) true).1 true =
        ((notify_button_event (some b) true).1, []) ∧
      (notify_button_event (notify_button_event (some b) true).1 false).2.length = 1 := by
  simp [notify_button_event, h]

/-- C6: whenever the stored state differs from the new `pressed` value, the
call raises the button's interrupt line with the logical negation of the new
value (0 for a press, 1 for a release) and stores the new value. -/
theorem notify_edge_event (b : ButtonInfo) (p : Bool) (h : b.pressed ≠ p) :
    notify_button_event (some b) p =
      (some { b with pressed := p }, [(b.irq, if p then 0 else 1)]) := by
  simp [notify_button_event, h]

/-- Button index `BTN_UP` of enum `button_e` (sim_arduboy.c:56-64). -/
def BTN_UP : Nat := 0

/-- Button index `BTN_DOWN`. -/
def BTN_DOWN : Nat := 1

/-- Button index `BTN_LEFT`. -/
def BTN_LEFT : Nat := 2

/-- Button index `BTN_RIGHT`. -/
def BTN_RIGHT : Nat := 3

/-- Button index `BTN_A`. -/
def BTN_A : Nat := 4

/-- Button index `BTN_B`. -/
def BTN_B : Nat := 5

/-- Result of `key_to_button_info` (sim_arduboy.c:193-206): whether the call
terminates the process, and which button, if any, the key maps to. -/
structure KeyLookup where
  exits : Bool
  btn : Option Nat
deriving DecidableEq

/-- `key_to_button_info`: `q` (ASCII 113) calls `exit(0)`; `z` (122) maps to
button A and `x` (120) to button B; every other key returns NULL. -/
def key_to_button_info (key : Nat) : KeyLookup :=
  if key = 113 then ⟨true, none⟩
  else if key = 122 then ⟨false, some BTN_A⟩
  else if key = 120 then ⟨false, some BTN_B⟩
  else ⟨false, none⟩

/-- `special_key_to_button_info` (sim_arduboy.c:177-191), with the freeglut
codes GLUT_KEY_LEFT = 100, GLUT_KEY_UP = 101, GLUT_KEY_RIGHT = 102,
GLUT_KEY_DOWN = 103. -/
def special_key_to_button_info (key : Nat) : Option Nat :=
  if key = 101 then some BTN_UP
  else if key = 103 then some BTN_DOWN
  else if key = 100 then some BTN_LEFT
  else if key = 102 then some BTN_RIGHT
  else none

/-- The `buttons` array as a map from index to entry, with
`notify_button_event` applied through a looked-up pointer: a `none` index is
the NULL-pointer call of the C handlers and touches no entry. -/
def notify_button_at (btns : Nat → ButtonInfo) (idx : Option Nat) (pressed : Bool) :
    (Nat → ButtonInfo) × List (Nat × Nat) :=
  match idx with
  | none => (btns, (notify_button_event none pressed).2)
  | some j =>
    let r := notify_button_event (some (btns j)) pressed
    (fun x => if x = j then r.1.getD (btns j) else btns x, r.2)

/-- `key_press` handler (sim_arduboy.c:233-237). -/
def key_press (key : Nat) (btns : Nat → ButtonInfo) :
    (Nat → ButtonInfo) × List (Nat × Nat) :=
  notify_button_at btns (key_to_button_info key).btn true

/-- `key_release` handler (sim_arduboy.c:239-243). -/
def key_release (key : Nat) (btns : Nat → ButtonInfo) :
    (Nat → ButtonInfo) × List (Nat × Nat) :=
  notify_button_at btns (key_to_button_info key).btn false

/-- `special_key_press` handler (sim_arduboy.c:221-225). -/
def special_key_press (key : Nat) (btns : Nat → ButtonInfo) :
    (Nat → ButtonInfo) × List (Nat × Nat) :=
  notify_button_at btns (special_key_to_button_info key) true

/-- `special_key_release` handler (sim_arduboy.c:227-231). -/
def special_key_release (key : Nat) (btns : Nat → ButtonInfo) :
    (Nat → ButtonInfo) × List (Nat × Nat) :=
  notify_button_at btns (special_key_to_button_info key) false

/-- C10: a key that maps to no button — and whose lookup does not terminate
the process, as `q` does — makes the press and release handlers no-ops:
every button's stored state is left unchanged and no event is delivered. -/
theorem unmapped_key_noop (key skey : Nat) (btns : Nat → ButtonInfo)
    (h1 : (key_to_button_info key).exits = false)
    (h2 : (key_to_button_info key).btn = none)
    (h3 : special_key_to_button_info skey = none) :
    key_press key btns = (btns, []) ∧ key_release key btns = (btns, []) ∧
      special_key_press skey btns = (btns, []) ∧
      special_key_release skey btns = (btns, []) := by
  simp [key_press, key_release, special_key_press, special_key_release,
    notify_button_at, notify_button_event, h2, h3]

/- ### Cycle-timer deadlines (C7) -/

/-- Modelled from the spec: `avr_usec_to_cycles` belongs to the simulator's
cycle/time conversion interface (`sim_time.h`), not among the sources at
hand; per the spec virtual time converts via the frequency constant, so
`usec` microseconds at `freq` Hz is `freq * usec / 1000000` cycles. -/
def avr_usec_to_cycles (freq usec : Nat) : Nat := freq * usec / 1000000

/-- `MHZ_16` (sim_arduboy.c:49): the configured `avr->frequency`, 16 MHz. -/
def MHZ_16 : Nat := 16000000

/-- `SSD1306_FRAME_PERIOD_US` (sim_arduboy.c:50). -/
def SSD1306_FRAME_PERIOD_US : Nat := 7572

/-- `GL_FRAME_PERIOD_US` (sim_arduboy.c:51). -/
def GL_FRAME_PERIOD_US : Nat := SSD1306_FRAME_PERIOD_US * 12

/-- Deadline returned by the `update_luma` cycle-timer callback
(sim_arduboy.c:106-113): the cycle count at firing plus the fixed persistence
period, at the program's frequency `MHZ_16`. -/
def update_luma_next (cycle : Nat) : Nat :=
  cycle + avr_usec_to_cycles MHZ_16 SSD1306_FRAME_PERIOD_US

/-- Deadline returned by the `schedule_render` cycle-timer callback
(sim_arduboy.c:286-294): the cycle count at firing plus the render period. -/
def schedule_render_next (cycle : Nat) : Nat :=
  cycle + avr_usec_to_cycles MHZ_16 GL_FRAME_PERIOD_US

/-- C7: each firing of the two periodic callbacks returns the current cycle
plus its fixed period in cycles (121152 for the persistence update, 1453824
for the render trigger); the periods being positive, each returned deadline
strictly exceeds the cycle it was computed at, and along non-decreasing
firing cycles the returned deadlines are non-decreasing. -/
theorem callback_deadlines (c c' : Nat) (h : c ≤ c') :
    update_luma_next c = c + 121152 ∧ schedule_render_next c = c + 1453824 ∧
      c < update_luma_next c ∧ c < schedule_render_next c ∧
      update_luma_next c ≤ update_luma_next c' ∧
      schedule_render_next c ≤ schedule_render_next c' := by
  have h1 : avr_usec_to_cycles MHZ_16 SSD1306_FRAME_PERIOD_US = 121152 := by decide
  have h2 : avr_usec_to_cycles MHZ_16 GL_FRAME_PERIOD_US = 1453824 := by decide
  refine ⟨by simp [update_luma_next, h1], by simp [schedule_render_next, h2], ?_, ?_, ?_, ?_⟩ <;>
    simp only [update_luma_next, schedule_render_next, h1, h2] <;> omega

/- ### Wall-clock synchronizer (C8) -/

/-- Modelled from the spec: `avr_cycles_to_nsec` belongs to the same
`sim_time.h` conversion interface; `cycles` at `freq` Hz is
`cycles * 1000000000 / freq` nanoseconds. -/
def avr_cycles_to_nsec (freq cycles : Nat) : Nat := cycles * 1000000000 / freq

/-- `avr_callback_sleep_sync` (sim_arduboy.c:121-138): computes the wall-clock
deadline of `avr->cycle + howLong` relative to `start_time_ns`, measures the
elapsed time, and either returns at once (`none`) or sleeps (`some` of the
`usleep` argument, in whole microseconds). -/
def avr_callback_sleep_sync (freq cycle howLong start_time_ns now_ns : Nat) : Option Nat :=
  let deadline_ns := avr_cycles_to_nsec freq (cycle + howLong)
  let runtime_ns := now_ns - start_time_ns
  if runtime_ns ≥ deadline_ns then none
  else some ((deadline_ns - runtime_ns) / 1000)

/-- C8: the synchronizer computes `deadline = cycles_to_time(cycle + howLong)`
and `elapsed = now - start`; when `elapsed ≥ deadline` it returns immediately
without sleeping, and otherwise it blocks for `deadline - elapsed` nanoseconds
(handed to `usleep` as whole microseconds). -/
theorem sleep_sync_spec (freq cycle howLong start now : Nat) :
    (avr_cycles_to_nsec freq (cycle + howLong) ≤ now - start →
      avr_callback_sleep_sync freq cycle howLong start now = none) ∧
    (now - start < avr_cycles_to_nsec freq (cycle + howLong) →
      avr_callback_sleep_sync freq cycle howLong start now =
        some ((avr_cycles_to_nsec freq (cycle + howLong) - (now - start)) / 1000)) := by
  constructor
  · intro h
    simp only [avr_callback_sleep_sync]
    rw [if_pos h]
  · intro h
    simp only [avr_callback_sleep_sync]
    rw [if_neg (by omega)]

/- ### Witnesses: each claim theorem evaluated at a concrete input -/

/-- Witness for C1: on a memory with only bit 0 of `vram[0][0]` set, the
update stores `clamp(0 - 85 + 170) = 85` at pixel (0,0,0). -/
theorem update_lumamap_pixel_witness :
    (85 ≤ 255 ∧ 170 ≤ 255 ∧
      demo_mem (0 * 8 * SSD1306_VIRT_COLUMNS + 0 + 0 * SSD1306_VIRT_COLUMNS) ≤ 255 ∧
      0 < SSD1306_VIRT_PAGES ∧ 0 < SSD1306_VIRT_COLUMNS ∧ 0 < 8) ∧
    update_lumamap demo_mem 85 170
      (0 * 8 * SSD1306_VIRT_COLUMNS + 0 + 0 * SSD1306_VIRT_COLUMNS) = 85 := by
  constructor
  · exact ⟨by decide, by decide, by decide, by decide, by decide, by decide⟩
  · rw [update_lumamap_pixel demo_mem 85 170 0 0 0 (by decide) (by decide) (by decide)
      (by decide) (by decide) (by decide)]
    decide

/-- Witness for C4: with decay 85 the pixel decays from 255 to 0 in
`ceil(255/85) = 3` steps, and is still 0 after 5 steps. -/
theorem decay_converges_witness :
    (1 ≤ 85 ∧ 85 ≤ 255 ∧ 255 ≤ 255) ∧
      (fun x => pixel_update x 85 0 false)^[(255 + 85 - 1) / 85] 255 = 0 ∧
      (fun x => pixel_update x 85 0 false)^[5] 255 = 0 :=
  ⟨⟨by decide, by decide, by decide⟩,
    (decay_converges 85 0 255 (by decide) (by decide) (by decide)).1,
    (decay_converges 85 0 255 (by decide) (by decide) (by decide)).2 5 (by decide)⟩

/-- Witness for C5: a concrete released button pressed twice delivers one
event. -/
theorem notify_press_press_release_witness :
    ((⟨4, 7, false⟩ : ButtonInfo).pressed = false) ∧
      (notify_button_event (some (⟨4, 7, false⟩ : ButtonInfo)) true).2.length = 1 :=
  ⟨rfl, (notify_press_press_release ⟨4, 7, false⟩ rfl).1⟩

/-- Witness for C6: pressing a concrete released button stores `pressed` and
raises its line (irq 7) with value 0. -/
theorem notify_edge_event_witness :
    ((⟨4, 7, false⟩ : ButtonInfo).pressed ≠ true) ∧
      notify_button_event (some (⟨4, 7, false⟩ : ButtonInfo)) true =
        (some (⟨4, 7, true⟩ : ButtonInfo), [(7, 0)]) := by
  refine ⟨by decide, ?_⟩
  rw [notify_edge_event (⟨4, 7, false⟩ : ButtonInfo) true (by decide)]
  decide

/-- Witness for C7: deadlines computed at cycles 0 and 5. -/
theorem callback_deadlines_witness :
    (0 ≤ 5) ∧ update_luma_next 0 = 0 + 121152 ∧ 0 < update_luma_next 0 ∧
      update_luma_next 0 ≤ update_luma_next 5 :=
  ⟨by decide, (callback_deadlines 0 5 (by decide)).1,
    (callback_deadlines 0 5 (by decide)).2.2.1,
    (callback_deadlines 0 5 (by decide)).2.2.2.2.1⟩

/-- Witness for C8: a 16000-cycle idle request at 16 MHz has a 1000000 ns
deadline; at elapsed 2000000 ns the synchronizer returns at once, and at
elapsed 400000 ns it sleeps 600 µs. -/
theorem sleep_sync_spec_witness :
    (avr_cycles_to_nsec 16000000 (0 + 16000) ≤ 2000000 - 0 ∧
      avr_callback_sleep_sync 16000000 0 16000 0 2000000 = none) ∧
    (400000 - 0 < avr_cycles_to_nsec 16000000 (0 + 16000) ∧
      avr_callback_sleep_sync 16000000 0 16000 0 400000 = some 600) := by
  refine ⟨⟨by decide, (sleep_sync_spec 16000000 0 16000 0 2000000).1 (by decide)⟩,
    ⟨by decide, ?_⟩⟩
  rw [(sleep_sync_spec 16000000 0 16000 0 400000).2 (by decide)]
  decide

/-- Witness for C9: the set vram byte of the scenario memory still reads 1
after an update. -/
theorem update_lumamap_frame_witness :
    VRAM_BASE ≤ VRAM_BASE ∧ update_lumamap demo_mem 85 170 VRAM_BASE = demo_mem VRAM_BASE :=
  ⟨Nat.le_refl _, update_lumamap_frame demo_mem 85 170 VRAM_BASE (Nat.le_refl _)⟩

/-- Witness for C10: key `a` (97) and special key 105 map to no button, and
the four handlers leave a concrete button map untouched. -/
theorem unmapped_key_noop_witness :
    ((key_to_button_info 97).exits = false ∧ (key_to_button_info 97).btn = none ∧
      special_key_to_button_info 105 = none) ∧
      key_press 97 (fun _ => (⟨0, 0, false⟩ : ButtonInfo)) =
        ((fun _ => (⟨0, 0, false⟩ : ButtonInfo)), []) ∧
      special_key_release 105 (fun _ => (⟨0, 0, false⟩ : ButtonInfo)) =
        ((fun _ => (⟨0, 0, false⟩ : ButtonInfo)), []) :=
  ⟨⟨by decide, by decide, by decide⟩,
    (unmapped_key_noop 97 105 (fun _ => (⟨0, 0, false⟩ : ButtonInfo))
      (by decide) (by decide) (by decide)).1,
    (unmapped_key_noop 97 105 (fun _ => (⟨0, 0, false⟩ : ButtonInfo))
      (by decide) (by decide) (by decide)).2.2.2⟩
end Arduboy
